import Mathlib

/-!
Shallow embedding of the KLH nutrition-label engine
(`klh/labels/models.py`, `klh/labels/fssai_compliance.py`,
`klh/labels/api_views.py` attribution step).

Python floats are modelled by exact rationals (ℚ); `round(x, n)` is modelled
by `pyRound n` below. Rendering of numbers inside human-readable message
strings is abstracted by `ratStr` (no claim depends on the digit strings).
-/

namespace KLH

/-- Python `round(q, n)` on exact rationals: round to `n` decimal places.
(Ties-to-even vs ties-away differences at exact half-multiples of
`10^(-n)` are not exercised by any concrete input in this development.) -/
def pyRound (n : ℕ) (q : ℚ) : ℚ := (round (q * (10 ^ n)) : ℤ) / (10 ^ n)

/-- Rendering of a rational inside a message string (Python f-string of a
float). The exact digits are irrelevant to every property proved here. -/
def ratStr (q : ℚ) : String := toString q.num ++ "/" ++ toString q.den

/-- A single-quote character for message strings. -/
def sq : String := "\x27"

/-- `Nutrient` model row (`models.py`): `daily_value` is nullable. -/
structure Nutrient where
  name : String
  unit : String
  daily_value : Option ℚ
deriving Repr, DecidableEq

/-- `IngredientNutrient` row: value of one nutrient per 100 g of an
ingredient (`models.py`). -/
structure IngNutrient where
  nutrient_id : ℕ
  nutrient : Nutrient
  value_per_100g : ℚ
deriving Repr, DecidableEq

/-- `RecipeIngredient` row joined with its ingredient's nutrient table. -/
structure RecipeIngredient where
  name : String
  weight_grams : ℚ
  nutrients : List IngNutrient
deriving Repr, DecidableEq

/-- The fields of `Recipe` (`models.py`) that the engine reads. -/
structure Recipe where
  serving_size : ℚ
  serving_unit : String
  servings_per_pack : ℚ
  allergen_info : String
  fssai_license : String
  ingredients : List RecipeIngredient
deriving Repr, DecidableEq

/-- `Recipe.total_weight`: sum of all ingredient weights. -/
def totalWeight (rows : List RecipeIngredient) : ℚ :=
  (rows.map (·.weight_grams)).sum

/-! The accumulation dict of `Recipe.calculate_nutrition`, keyed by
nutrient id, holding the nutrient object of first insertion and the
running total. -/

/-- One accumulator entry: `(nutrient_id, (nutrient, running_total))`. -/
abbrev AccEntry := ℕ × Nutrient × ℚ

/-- Add `v` into the entry with key `nid` (Python `nutrition[nid]['total_value'] += value`). -/
def updateKey (nid : ℕ) (v : ℚ) (acc : List AccEntry) : List AccEntry :=
  acc.map (fun e => if e.1 == nid then (e.1, e.2.1, e.2.2 + v) else e)

/-- Dict accumulation step: create the entry on first sight, else add. -/
def addValue (acc : List AccEntry) (nid : ℕ) (nut : Nutrient) (v : ℚ) : List AccEntry :=
  if acc.any (fun e => e.1 == nid) then updateKey nid v acc
  else acc ++ [(nid, nut, v)]

/-- Inner loop of `calculate_nutrition`: fold one ingredient's nutrient rows,
each contributing `(weight/100) * value_per_100g`. -/
def accIng (w : ℚ) : List IngNutrient → List AccEntry → List AccEntry
  | [], acc => acc
  | inv :: rest, acc =>
      accIng w rest (addValue acc inv.nutrient_id inv.nutrient (w / 100 * inv.value_per_100g))

/-- Outer loop of `calculate_nutrition`: fold all recipe ingredient rows. -/
def accRows : List RecipeIngredient → List AccEntry → List AccEntry
  | [], acc => acc
  | ri :: rest, acc => accRows rest (accIng ri.weight_grams ri.nutrients acc)

/-- One nutrient's result record in `calculate_nutrition`'s output. -/
structure NutrientResult where
  nutrient : Nutrient
  total_value : ℚ
  per_serving : ℚ
  per_100g : ℚ
  percent_dv : Option ℚ
deriving Repr, DecidableEq

/-- Per-nutrient finalization pass of `calculate_nutrition`:
derive per-serving, per-100g and percent-DV from the raw total.
`percent_dv` is `none` when `daily_value` is Python-falsy (null or 0). -/
def finalize (total_wt serving_size : ℚ) (e : AccEntry) : ℕ × NutrientResult :=
  let per_serving := e.2.2 / total_wt * serving_size
  (e.1,
    { nutrient := e.2.1
      total_value := pyRound 2 e.2.2
      per_serving := pyRound 2 per_serving
      per_100g := pyRound 2 (e.2.2 / total_wt * 100)
      percent_dv :=
        match e.2.1.daily_value with
        | none => none
        | some dv => if dv = 0 then none else some (pyRound 1 (per_serving / dv * 100)) })

/-- `Recipe.calculate_nutrition` (`models.py` lines 157–193):
accumulate `(weight/100) * value_per_100g` per nutrient id, then divide by
`total_weight or 1` and round. -/
def effectiveWeight (rows : List RecipeIngredient) : ℚ :=
  if totalWeight rows = 0 then 1 else totalWeight rows

def calculate_nutrition (r : Recipe) : List (ℕ × NutrientResult) :=
  let acc := accRows r.ingredients []
  acc.map (finalize (effectiveWeight r.ingredients) r.serving_size)

/-! Spec-side description of the accumulated total, used to state C1. -/

/-- The contribution of one recipe-ingredient row to nutrient `nid`. -/
def ingContribution (nid : ℕ) (ri : RecipeIngredient) : ℚ :=
  ((ri.nutrients.filter (fun inv => inv.nutrient_id == nid)).map
    (fun inv => ri.weight_grams / 100 * inv.value_per_100g)).sum

/-- The total amount of nutrient `nid` in the recipe: sum over ingredient
rows of `(weight_grams / 100) * value_per_100g`. -/
def nutrientTotal (rows : List RecipeIngredient) (nid : ℕ) : ℚ :=
  (rows.map (ingContribution nid)).sum

/-! ## FSSAI compliance checker (`fssai_compliance.py`) -/

/-- `FSSAIComplianceChecker.MANDATORY_NUTRIENTS`. -/
def MANDATORY_NUTRIENTS : List String :=
  ["Energy", "Total Fat", "Saturated Fat", "Trans Fat",
   "Total Carbohydrate", "Total Sugars", "Added Sugars",
   "Protein", "Sodium", "Dietary Fibre"]

def HIGH_FAT_THRESHOLD : ℚ := 17.5
def HIGH_SUGAR_THRESHOLD : ℚ := 22.5
def HIGH_SODIUM_THRESHOLD : ℚ := 600
def HIGH_SATURATED_FAT_THRESHOLD : ℚ := 5.0

/-- Python dict assignment `d[k] = v`: replace in place if the key exists,
else append at the end (insertion order preserved). -/
def dictInsert {α : Type} (d : List (String × α)) (k : String) (v : α) :
    List (String × α) :=
  if d.any (fun e => e.1 == k) then
    d.map (fun e => if e.1 == k then (k, v) else e)
  else d ++ [(k, v)]

/-- Python `d.get(k)` as an option. -/
def dictFind? {α : Type} (d : List (String × α)) (k : String) : Option α :=
  (d.find? (fun e => e.1 == k)).map (·.2)

/-- Python `d.get(k, dflt)`. -/
def dictGetD {α : Type} (d : List (String × α)) (k : String) (dflt : α) : α :=
  (dictFind? d k).getD dflt

/-- The `per_100g = {name: value}` dict both `_check_fop_warnings` and
`get_fop_indicators` build from the nutrition data. -/
def per100gDict (nd : List (ℕ × NutrientResult)) : List (String × ℚ) :=
  nd.foldl (fun d p => dictInsert d p.2.nutrient.name p.2.per_100g) []

/-- The names present in the nutrition result (`present_names`). -/
def presentNames (nd : List (ℕ × NutrientResult)) : List String :=
  nd.map (fun p => p.2.nutrient.name)

/-- The issue string of `_check_mandatory_nutrients`. -/
def missingMandatoryIssueMsg (mn : String) : String :=
  "MISSING MANDATORY NUTRIENT: " ++ sq ++ mn ++ sq ++ " is required by " ++
  "FSSAI regulations but is not present in the nutrition data."

/-- `_check_mandatory_nutrients`: one issue per mandatory name absent from
the nutrition result, in the catalog's order. -/
def check_mandatory_nutrients (nd : List (ℕ × NutrientResult)) : List String :=
  (MANDATORY_NUTRIENTS.filter (fun mn => !((presentNames nd).contains mn))).map
    missingMandatoryIssueMsg

/-- `_check_serving_size_declaration`: returns `(issues, warnings)`. -/
def check_serving_size_declaration (r : Recipe) : List String × List String :=
  ((if r.serving_size = 0 ∨ r.serving_size ≤ 0 then
      ["SERVING SIZE: Must be declared as per FSSAI regulations."] else [])
   ++ (if r.serving_unit = "" then
      ["SERVING UNIT: Must specify unit (g/ml) for serving size."] else []),
   if r.servings_per_pack = 0 ∨ r.servings_per_pack ≤ 0 then
      ["SERVINGS PER PACK: Should declare number of servings per package."] else [])

/-- `_check_fop_warnings`: warnings for each of the four FOP nutrients whose
per-100g value strictly exceeds its threshold. -/
def check_fop_warnings (nd : List (ℕ × NutrientResult)) : List String :=
  let d := per100gDict nd
  let total_fat := dictGetD d "Total Fat" 0
  let sat_fat := dictGetD d "Saturated Fat" 0
  let sugars := dictGetD d "Total Sugars" 0
  let sodium := dictGetD d "Sodium" 0
  (if total_fat > HIGH_FAT_THRESHOLD then
    ["HIGH IN FAT: Total fat (" ++ ratStr total_fat ++ "g/100g) exceeds " ++
     "threshold (" ++ ratStr HIGH_FAT_THRESHOLD ++ "g/100g). " ++
     "FOP warning label " ++ sq ++ "HIGH IN FAT" ++ sq ++ " required."] else [])
  ++ (if sat_fat > HIGH_SATURATED_FAT_THRESHOLD then
    ["HIGH IN SATURATED FAT: (" ++ ratStr sat_fat ++ "g/100g) exceeds " ++
     "threshold (" ++ ratStr HIGH_SATURATED_FAT_THRESHOLD ++ "g/100g). " ++
     "FOP warning may be required."] else [])
  ++ (if sugars > HIGH_SUGAR_THRESHOLD then
    ["HIGH IN SUGAR: Total sugars (" ++ ratStr sugars ++ "g/100g) exceeds " ++
     "threshold (" ++ ratStr HIGH_SUGAR_THRESHOLD ++ "g/100g). " ++
     "FOP warning label " ++ sq ++ "HIGH IN SUGAR" ++ sq ++ " required."] else [])
  ++ (if sodium > HIGH_SODIUM_THRESHOLD then
    ["HIGH IN SODIUM: (" ++ ratStr sodium ++ "mg/100g) exceeds " ++
     "threshold (" ++ ratStr HIGH_SODIUM_THRESHOLD ++ "mg/100g). " ++
     "FOP warning label " ++ sq ++ "HIGH IN SODIUM/SALT" ++ sq ++ " required."] else [])

/-- `_check_ingredient_list`: returns `(issues, info)`. -/
def check_ingredient_list (r : Recipe) : List String × List String :=
  if r.ingredients.isEmpty then
    (["INGREDIENT LIST: Recipe must have at least one ingredient. " ++
      "FSSAI requires full ingredient list in descending order of weight."], [])
  else
    ([], ["INGREDIENT LIST: " ++ toString r.ingredients.length ++
          " ingredients declared. " ++
          "Listed in descending order of composition by weight as required."])

/-- `_check_allergen_declaration`: returns `(warnings, info)`. -/
def check_allergen_declaration (r : Recipe) : List String × List String :=
  if r.allergen_info = "" then
    (["ALLERGEN DECLARATION: No allergen information provided. " ++
      "FSSAI requires declaration of common allergens (milk, nuts, " ++
      "gluten, soy, eggs, fish, crustaceans, etc.) if present."], [])
  else ([], ["ALLERGEN DECLARATION: Provided."])

/-- Python `str.isdigit` restricted to ASCII digits (the only digits any
input here contains): true on a non-empty all-digit string. -/
def pyIsdigit (s : String) : Bool := s.length > 0 && s.toList.all Char.isDigit

/-- Python `str.strip()`: remove leading and trailing whitespace
(modelled on the character list so it evaluates on concrete inputs). -/
def pyStrip (s : String) : String :=
  ⟨((s.data.dropWhile Char.isWhitespace).reverse.dropWhile Char.isWhitespace).reverse⟩

/-- `_check_fssai_license`: strip, then warn on empty, warn on a non-14-digit
value, else emit the format-valid info note. Returns `(warnings, info)`. -/
def check_fssai_license (fssai_license : String) : List String × List String :=
  let lic := pyStrip fssai_license
  if lic = "" then
    (["FSSAI LICENSE: No FSSAI license number provided. " ++
      "Required on all packaged food products."], [])
  else if lic.length ≠ 14 ∨ pyIsdigit lic = false then
    (["FSSAI LICENSE: " ++ sq ++ lic ++ sq ++ " may not be valid. " ++
      "FSSAI license numbers are typically 14 digits."], [])
  else ([], ["FSSAI LICENSE: " ++ lic ++ " (format valid)."])

/-- `_check_trans_fat`: examine only the first `Trans Fat` entry; warn when
trans fat exceeds 2% of total fat (both per-100g values positive). -/
def check_trans_fat (nd : List (ℕ × NutrientResult)) : List String :=
  match nd.find? (fun p => p.2.nutrient.name == "Trans Fat") with
  | none => []
  | some p =>
    let per_100g := p.2.per_100g
    let total_fat_per_100g :=
      match nd.find? (fun q => q.2.nutrient.name == "Total Fat") with
      | some q => q.2.per_100g
      | none => 0
    if total_fat_per_100g > 0 ∧ per_100g > 0 then
      let trans_pct := per_100g / total_fat_per_100g * 100
      if trans_pct > 2 then
        ["TRANS FAT: " ++ ratStr per_100g ++ "g/100g (" ++ ratStr trans_pct ++
         "% of total fat). FSSAI sets a limit on industrial trans fat."]
      else []
    else []

/-- Number a list of findings as `_format_notes` does: `"  {i}. {text}"`. -/
def numberLines (xs : List String) : List String :=
  xs.enum.map (fun p => "  " ++ toString (p.1 + 1) ++ ". " ++ p.2)

/-- The affirmative line `_format_notes` emits when there are neither
issues nor warnings. -/
def allPassedLine : String := "✓ All FSSAI compliance checks passed."

/-- The lines `_format_notes` assembles before joining with newlines. -/
def notesLines (issues warnings info : List String) : List String :=
  (if issues = [] then [] else
    "=== COMPLIANCE ISSUES (Must Fix) ===" :: numberLines issues)
  ++ (if warnings = [] then [] else
    "\n=== WARNINGS (Recommended) ===" :: numberLines warnings)
  ++ (if info = [] then [] else
    "\n=== INFO ===" :: numberLines info)
  ++ (if issues = [] ∧ warnings = [] then [allPassedLine] else [])

/-- `_format_notes`: the composite human-readable report. -/
def format_notes (issues warnings info : List String) : String :=
  String.intercalate "\n" (notesLines issues warnings info)

/-- The checker's accumulated state after `check_all`'s battery has run. -/
structure ComplianceResult where
  is_compliant : Bool
  issues : List String
  warnings : List String
  info : List String
  notes : String
deriving Repr, DecidableEq

/-- `FSSAIComplianceChecker.check_all`: run every check in order, appending
to the issue/warning/info lists, then derive the verdict and the notes. -/
def check_all (r : Recipe) (nd : List (ℕ × NutrientResult)) : ComplianceResult :=
  let mand := check_mandatory_nutrients nd
  let serv := check_serving_size_declaration r
  let fop := check_fop_warnings nd
  let ing := check_ingredient_list r
  let allerg := check_allergen_declaration r
  let lic := check_fssai_license r.fssai_license
  let trans := check_trans_fat nd
  let issues := mand ++ serv.1 ++ ing.1
  let warnings := serv.2 ++ fop ++ allerg.1 ++ lic.1 ++ trans
  let info := ing.2 ++ allerg.2 ++ lic.2
  { is_compliant := issues.length == 0
    issues := issues
    warnings := warnings
    info := info
    notes := format_notes issues warnings info }

/-! ## Front-of-pack classifier (`get_fop_indicators`) -/

/-- One FOP traffic-light indicator. -/
structure FOPIndicator where
  nutrient : String
  value : ℚ
  unit : String
  level : String
  color : String
deriving Repr, DecidableEq

/-- The fixed `checks` table of `get_fop_indicators`. -/
def fopChecks : List (String × ℚ × String) :=
  [("Total Fat", HIGH_FAT_THRESHOLD, "g"),
   ("Saturated Fat", HIGH_SATURATED_FAT_THRESHOLD, "g"),
   ("Total Sugars", HIGH_SUGAR_THRESHOLD, "g"),
   ("Sodium", HIGH_SODIUM_THRESHOLD, "mg")]

/-- `FSSAIComplianceChecker.get_fop_indicators`: classify the four key
per-100g values into HIGH/MEDIUM/LOW with red/amber/green colors. -/
def get_fop_indicators (nd : List (ℕ × NutrientResult)) : List FOPIndicator :=
  let d := per100gDict nd
  fopChecks.map (fun c =>
    let value := dictGetD d c.1 0
    let lc : String × String :=
      if value > c.2.1 then ("HIGH", "red")
      else if value > c.2.1 * 0.5 then ("MEDIUM", "amber")
      else ("LOW", "green")
    { nutrient := c.1, value := value, unit := c.2.2, level := lc.1, color := lc.2 })

/-! ## Reformulation attribution (`api_views.py`, `api_reformulate`) -/

/-- One entry of the per-ingredient nutrient dict `ing_nutrients`. -/
structure IngNutrientFact where
  abs : ℚ
  per_100g_ing : ℚ
  unit : String
deriving Repr, DecidableEq

/-- The per-ingredient record `ingredient_data` builds: name, weight and the
nutrient dict with `abs = round((weight/100) * value_per_100g, 4)`. -/
structure IngredientData where
  name : String
  weight_grams : ℚ
  nutrients : List (String × IngNutrientFact)
deriving Repr, DecidableEq

/-- Step 1 of `api_reformulate`: per-ingredient nutrient contributions. -/
def buildIngredientData (rows : List RecipeIngredient) : List IngredientData :=
  rows.map (fun ri =>
    { name := ri.name
      weight_grams := ri.weight_grams
      nutrients := ri.nutrients.foldl (fun d inv =>
        dictInsert d inv.nutrient.name
          { abs := pyRound 4 (ri.weight_grams / 100 * inv.value_per_100g)
            per_100g_ing := pyRound 4 inv.value_per_100g
            unit := inv.nutrient.unit }) [] })

/-- One contributor row of the attribution output. -/
structure Contribution where
  ingredient : String
  weight_grams : ℚ
  contribution_abs : ℚ
  contribution_per_100g : ℚ
  pct_of_total : ℚ
deriving Repr, DecidableEq

/-- The unsorted `contribs` list for one HIGH nutrient: ingredients with a
recorded, positive absolute contribution, in recipe order. -/
def contribsFor (ings : List IngredientData) (total_weight : ℚ)
    (nutrient_name : String) (high_value : ℚ) : List Contribution :=
  ings.filterMap (fun ing =>
    match dictFind? ing.nutrients nutrient_name with
    | none => none
    | some n =>
      if n.abs > 0 then
        some { ingredient := ing.name
               weight_grams := ing.weight_grams
               contribution_abs := pyRound 3 n.abs
               contribution_per_100g := pyRound 3 (n.abs / total_weight * 100)
               pct_of_total :=
                 pyRound 1 (n.abs / max (high_value * total_weight / 100) 0.001 * 100) }
      else none)

/-- `contribs.sort(key=..., reverse=True)` followed by `[:5]`: stable
descending sort on `contribution_abs`, then keep at most five. -/
def topContributors (ings : List IngredientData) (total_weight : ℚ)
    (nutrient_name : String) (high_value : ℚ) : List Contribution :=
  ((contribsFor ings total_weight nutrient_name high_value).mergeSort
    (fun a b => decide (b.contribution_abs ≤ a.contribution_abs))).take 5

/-- The `THRESHOLDS` map of `api_reformulate` (`.get(name, {}).get('threshold', 0)`). -/
def attributionThreshold (name : String) : ℚ :=
  if name == "Total Fat" then 17.5
  else if name == "Saturated Fat" then 5.0
  else if name == "Total Sugars" then 22.5
  else if name == "Sodium" then 600
  else 0

/-- One HIGH nutrient's attribution record. -/
structure AttributionEntry where
  current_per_100g : ℚ
  threshold : ℚ
  unit : String
  top_contributors : List Contribution
deriving Repr, DecidableEq

/-- Step 2 of `api_reformulate`: attribution for every FOP indicator whose
level is HIGH (`total_weight` is the recipe's, with the `or 1.0` fallback
applied by the caller). -/
def attribution (rows : List RecipeIngredient) (total_weight : ℚ)
    (fop : List FOPIndicator) : List (String × AttributionEntry) :=
  let ings := buildIngredientData rows
  (fop.filter (fun ind => ind.level == "HIGH")).map (fun high =>
    (high.nutrient,
      { current_per_100g := pyRound 3 high.value
        threshold := attributionThreshold high.nutrient
        unit := high.unit
        top_contributors := topContributors ings total_weight high.nutrient high.value }))

/-! ## Accumulator invariants -/

/-- The running total stored for key `nid` (0 when absent). -/
def accTotal (acc : List AccEntry) (nid : ℕ) : ℚ :=
  match acc.find? (fun e => e.1 == nid) with
  | some e => e.2.2
  | none => 0

/-- Whether the accumulation dict has an entry for `nid`. -/
def accHas (acc : List AccEntry) (nid : ℕ) : Bool :=
  acc.any (fun e => e.1 == nid)

theorem accTotal_cons (e : AccEntry) (t : List AccEntry) (nid : ℕ) :
    accTotal (e :: t) nid = if (e.1 == nid) = true then e.2.2 else accTotal t nid := by
  unfold accTotal
  by_cases h : (e.1 == nid) = true
  · rw [List.find?_cons_of_pos t (show (fun (x : AccEntry) => x.1 == nid) e = true from h),
      if_pos h]
  · rw [List.find?_cons_of_neg t (show ¬ (fun (x : AccEntry) => x.1 == nid) e = true from h),
      if_neg h]

theorem accHas_cons (e : AccEntry) (t : List AccEntry) (nid : ℕ) :
    accHas (e :: t) nid = (e.1 == nid || accHas t nid) := rfl

theorem updateKey_cons (nidins : ℕ) (v : ℚ) (e : AccEntry) (t : List AccEntry) :
    updateKey nidins v (e :: t) =
      (if (e.1 == nidins) = true then (e.1, e.2.1, e.2.2 + v) else e) :: updateKey nidins v t := rfl

theorem accTotal_of_not_accHas (acc : List AccEntry) (nid : ℕ)
    (h : accHas acc nid = false) : accTotal acc nid = 0 := by
  unfold accTotal
  have hf : acc.find? (fun e => e.1 == nid) = none := by
    rw [List.find?_eq_none]
    intro e he
    have := List.any_eq_false.mp h e he
    simpa using this
  rw [hf]

theorem accHas_updateKey (acc : List AccEntry) (nid nidins : ℕ) (v : ℚ) :
    accHas (updateKey nidins v acc) nid = accHas acc nid := by
  induction acc with
  | nil => rfl
  | cons e t ih =>
    rw [updateKey_cons, accHas_cons, accHas_cons, ih]
    by_cases h : (e.1 == nidins) = true
    · rw [if_pos h]
    · rw [if_neg h]

theorem accTotal_updateKey_self (acc : List AccEntry) (nid : ℕ) (v : ℚ)
    (h : accHas acc nid = true) :
    accTotal (updateKey nid v acc) nid = accTotal acc nid + v := by
  induction acc with
  | nil => simp [accHas] at h
  | cons e t ih =>
    rw [updateKey_cons, accTotal_cons, accTotal_cons]
    by_cases he : (e.1 == nid) = true
    · rw [if_pos he]
      have hcond : ((e.1, e.2.1, e.2.2 + v).1 == nid) = true := he
      rw [if_pos hcond, if_pos he]
    · have he' : (e.1 == nid) = false := by simpa using he
      have ht : accHas t nid = true := by
        rw [accHas_cons, he'] at h
        simpa using h
      rw [if_neg he]
      have hcond : ¬ ((e.1 == nid) = true) := he
      rw [if_neg hcond, if_neg hcond]
      exact ih ht

theorem accTotal_updateKey_ne (acc : List AccEntry) (nid nidins : ℕ) (v : ℚ)
    (h : ¬ (nid = nidins)) :
    accTotal (updateKey nidins v acc) nid = accTotal acc nid := by
  induction acc with
  | nil => rfl
  | cons e t ih =>
    rw [updateKey_cons, accTotal_cons, accTotal_cons]
    by_cases he : (e.1 == nidins) = true
    · have hkey : e.1 = nidins := by simpa using he
      have hne : ((e.1 == nid) = true) → False := by
        intro hc
        exact h ((by simpa using hc : e.1 = nid) ▸ hkey.symm ▸ rfl)
      rw [if_pos he]
      have hcond : ¬ (((e.1, e.2.1, e.2.2 + v).1 == nid) = true) := fun hc => hne hc
      rw [if_neg hcond, if_neg hne]
      exact ih
    · rw [if_neg he]
      by_cases hk : (e.1 == nid) = true
      · rw [if_pos hk, if_pos hk]
      · rw [if_neg hk, if_neg hk]
        exact ih

theorem accTotal_addValue (acc : List AccEntry) (nidins nid : ℕ) (nut : Nutrient) (v : ℚ) :
    accTotal (addValue acc nidins nut v) nid =
      accTotal acc nid + (if nid = nidins then v else 0) := by
  unfold addValue
  by_cases hh : (acc.any (fun e => e.1 == nidins)) = true
  · rw [if_pos hh]
    by_cases heq : nid = nidins
    · subst heq
      rw [accTotal_updateKey_self acc nid v hh, if_pos rfl]
    · rw [accTotal_updateKey_ne acc nid nidins v heq, if_neg heq, add_zero]
  · rw [if_neg hh]
    by_cases heq : nid = nidins
    · subst heq
      have hf : acc.find? (fun e => e.1 == nid) = none := by
        rw [List.find?_eq_none]
        intro e he hc
        exact hh (List.any_eq_true.mpr ⟨e, he, hc⟩)
      unfold accTotal
      rw [List.find?_append, hf]
      simp [List.find?_cons]
    · have hb : ((nidins == nid) : Bool) = false := by
        simp only [beq_eq_false_iff_ne, ne_eq]
        exact fun hc => heq hc.symm
      unfold accTotal
      rw [List.find?_append]
      cases hf : acc.find? (fun e => e.1 == nid) with
      | some e => simp [List.find?_cons, hb, hf, heq]
      | none => simp [List.find?_cons, hb, hf, heq]

theorem accHas_addValue (acc : List AccEntry) (nidins nid : ℕ) (nut : Nutrient) (v : ℚ) :
    accHas (addValue acc nidins nut v) nid = (accHas acc nid || nid == nidins) := by
  have hcomm : ((nidins == nid) : Bool) = (nid == nidins) := by
    by_cases h : nid = nidins
    · subst h; rfl
    · have h1 : ((nidins == nid) : Bool) = false := by
        simp only [beq_eq_false_iff_ne, ne_eq]
        exact fun hc => h hc.symm
      have h2 : ((nid == nidins) : Bool) = false := by simpa using h
      rw [h1, h2]
  unfold addValue
  by_cases hh : (acc.any (fun e => e.1 == nidins)) = true
  · rw [if_pos hh, accHas_updateKey]
    by_cases heq : nid = nidins
    · subst heq
      have : accHas acc nid = true := hh
      rw [this]
      rfl
    · have : ((nid == nidins) : Bool) = false := by simpa using heq
      rw [this, Bool.or_false]
  · rw [if_neg hh]
    unfold accHas
    rw [List.any_append]
    simp only [List.any_cons, List.any_nil]
    rw [Bool.or_false, hcomm]

theorem accTotal_accIng (w : ℚ) (l : List IngNutrient) (acc : List AccEntry) (nid : ℕ) :
    accTotal (accIng w l acc) nid =
      accTotal acc nid +
        ((l.filter (fun inv => inv.nutrient_id == nid)).map
          (fun inv => w / 100 * inv.value_per_100g)).sum := by
  induction l generalizing acc with
  | nil => simp [accIng]
  | cons inv rest ih =>
    rw [show accIng w (inv :: rest) acc =
      accIng w rest (addValue acc inv.nutrient_id inv.nutrient
        (w / 100 * inv.value_per_100g)) from rfl]
    rw [ih, accTotal_addValue]
    by_cases h : inv.nutrient_id = nid
    · simp only [List.filter_cons, h, List.map_cons, List.sum_cons, beq_self_eq_true, if_pos]
      ring
    · have h2 : ¬ (nid = inv.nutrient_id) := fun hc => h hc.symm
      have hb : (inv.nutrient_id == nid) = false := by simpa using h
      simp only [List.filter_cons, hb, Bool.false_eq_true, if_false, h2, if_neg, add_zero]

theorem accHas_accIng (w : ℚ) (l : List IngNutrient) (acc : List AccEntry) (nid : ℕ) :
    accHas (accIng w l acc) nid =
      (accHas acc nid || l.any (fun inv => inv.nutrient_id == nid)) := by
  induction l generalizing acc with
  | nil => simp [accIng]
  | cons inv rest ih =>
    rw [show accIng w (inv :: rest) acc =
      accIng w rest (addValue acc inv.nutrient_id inv.nutrient
        (w / 100 * inv.value_per_100g)) from rfl]
    rw [ih, accHas_addValue]
    by_cases h : nid = inv.nutrient_id
    · simp [h]
    · have h1 : ((nid == inv.nutrient_id) : Bool) = false := by simpa using h
      have h2 : ((inv.nutrient_id == nid) : Bool) = false := by
        simp only [beq_eq_false_iff_ne, ne_eq]
        exact fun hc => h hc.symm
      simp [h1, h2, Bool.or_assoc]

theorem accTotal_accRows (rows : List RecipeIngredient) (acc : List AccEntry) (nid : ℕ) :
    accTotal (accRows rows acc) nid = accTotal acc nid + nutrientTotal rows nid := by
  induction rows generalizing acc with
  | nil => simp [accRows, nutrientTotal]
  | cons ri rest ih =>
    rw [show accRows (ri :: rest) acc =
      accRows rest (accIng ri.weight_grams ri.nutrients acc) from rfl]
    rw [ih, accTotal_accIng]
    simp only [nutrientTotal, ingContribution, List.map_cons, List.sum_cons]
    ring

theorem accHas_accRows (rows : List RecipeIngredient) (acc : List AccEntry) (nid : ℕ) :
    accHas (accRows rows acc) nid =
      (accHas acc nid ||
        rows.any (fun ri => ri.nutrients.any (fun inv => inv.nutrient_id == nid))) := by
  induction rows generalizing acc with
  | nil => simp [accRows]
  | cons ri rest ih =>
    rw [show accRows (ri :: rest) acc =
      accRows rest (accIng ri.weight_grams ri.nutrients acc) from rfl]
    rw [ih, accHas_accIng]
    simp [Bool.or_assoc]

/-- The keys of the accumulation dict. -/
def accKeys (acc : List AccEntry) : List ℕ := acc.map (·.1)

theorem accHas_eq_true_iff (acc : List AccEntry) (nid : ℕ) :
    accHas acc nid = true ↔ nid ∈ accKeys acc := by
  simp only [accHas, accKeys, List.any_eq_true, List.mem_map, beq_iff_eq]

theorem accKeys_updateKey (nidins : ℕ) (v : ℚ) (acc : List AccEntry) :
    accKeys (updateKey nidins v acc) = accKeys acc := by
  induction acc with
  | nil => rfl
  | cons e t ih =>
    rw [updateKey_cons]
    show (if (e.1 == nidins) = true then (e.1, e.2.1, e.2.2 + v) else e).1 ::
        accKeys (updateKey nidins v t) = e.1 :: accKeys t
    rw [ih]
    by_cases h : (e.1 == nidins) = true
    · rw [if_pos h]
    · rw [if_neg h]

theorem accKeys_nodup_addValue (acc : List AccEntry) (nid : ℕ) (nut : Nutrient) (v : ℚ)
    (h : (accKeys acc).Nodup) : (accKeys (addValue acc nid nut v)).Nodup := by
  unfold addValue
  by_cases hh : (acc.any (fun e => e.1 == nid)) = true
  · rw [if_pos hh, accKeys_updateKey]
    exact h
  · rw [if_neg hh]
    have hkeys : accKeys (acc ++ [(nid, nut, v)]) = accKeys acc ++ [nid] := by
      simp [accKeys]
    rw [hkeys]
    have hnin : nid ∉ accKeys acc := by
      intro hc
      exact hh ((accHas_eq_true_iff acc nid).mpr hc)
    simp [List.nodup_append, h, hnin]

theorem accKeys_nodup_accIng (w : ℚ) (l : List IngNutrient) (acc : List AccEntry)
    (h : (accKeys acc).Nodup) : (accKeys (accIng w l acc)).Nodup := by
  induction l generalizing acc with
  | nil => exact h
  | cons inv rest ih =>
    exact ih _ (accKeys_nodup_addValue _ _ _ _ h)

theorem accKeys_nodup_accRows (rows : List RecipeIngredient) (acc : List AccEntry)
    (h : (accKeys acc).Nodup) : (accKeys (accRows rows acc)).Nodup := by
  induction rows generalizing acc with
  | nil => exact h
  | cons ri rest ih =>
    exact ih _ (accKeys_nodup_accIng _ _ _ h)

theorem find?_eq_of_mem_of_nodup (acc : List AccEntry) (hnd : (accKeys acc).Nodup)
    (e : AccEntry) (he : e ∈ acc) :
    acc.find? (fun x => x.1 == e.1) = some e := by
  induction acc with
  | nil => cases he
  | cons a t ih =>
    have hnd' := List.nodup_cons.mp (show (a.1 :: accKeys t).Nodup from hnd)
    rcases List.mem_cons.mp he with rfl | ht
    · rw [List.find?_cons]
      simp
    · rw [List.find?_cons]
      have hb : (a.1 == e.1) = false := by
        simp only [beq_eq_false_iff_ne, ne_eq]
        intro hc
        apply hnd'.1
        rw [hc]
        exact List.mem_map.mpr ⟨e, ht, rfl⟩
      simp only [hb]
      exact ih hnd'.2 ht

/-- Every entry of the finished accumulator carries exactly the recipe's
total for its nutrient id. -/
theorem mem_accRows_total (rows : List RecipeIngredient) (e : AccEntry)
    (he : e ∈ accRows rows []) : e.2.2 = nutrientTotal rows e.1 := by
  have hnd : (accKeys (accRows rows [])).Nodup :=
    accKeys_nodup_accRows rows [] (by simp [accKeys])
  have hf := find?_eq_of_mem_of_nodup _ hnd e he
  have htot := accTotal_accRows rows [] e.1
  unfold accTotal at htot
  rw [hf] at htot
  simpa using htot

/-- A contributed nutrient id has an entry in the finished accumulator. -/
theorem exists_mem_accRows (rows : List RecipeIngredient) (nid : ℕ)
    (h : rows.any (fun ri => ri.nutrients.any (fun inv => inv.nutrient_id == nid)) = true) :
    ∃ e ∈ accRows rows [], e.1 = nid := by
  have hhas : accHas (accRows rows []) nid = true := by
    rw [accHas_accRows]
    simp [h]
  obtain ⟨e, he, hb⟩ := List.any_eq_true.mp hhas
  exact ⟨e, he, by simpa using hb⟩

/-- Every reported record of `calculate_nutrition` carries exactly the
rounded aggregate formulas of the spec. -/
theorem calc_mem_formula (r : Recipe) (nid : ℕ) (res : NutrientResult)
    (hmem : (nid, res) ∈ calculate_nutrition r) :
    res.per_serving = pyRound 2 (nutrientTotal r.ingredients nid /
        effectiveWeight r.ingredients * r.serving_size) ∧
    res.per_100g = pyRound 2 (nutrientTotal r.ingredients nid /
        effectiveWeight r.ingredients * 100) ∧
    res.total_value = pyRound 2 (nutrientTotal r.ingredients nid) := by
  simp only [calculate_nutrition] at hmem
  obtain ⟨e, he, heq⟩ := List.mem_map.mp hmem
  have ht : e.2.2 = nutrientTotal r.ingredients e.1 := mem_accRows_total _ _ he
  unfold finalize at heq
  injection heq with ha hb
  subst ha
  subst hb
  refine ⟨?_, ?_, ?_⟩ <;> simp [ht]

/-- Every contributed nutrient id is reported by `calculate_nutrition`. -/
theorem calc_exists (r : Recipe) (nid : ℕ)
    (h : ∃ ri ∈ r.ingredients, ∃ inv ∈ ri.nutrients, inv.nutrient_id = nid) :
    ∃ res : NutrientResult, (nid, res) ∈ calculate_nutrition r := by
  have hany : r.ingredients.any
      (fun ri => ri.nutrients.any (fun inv => inv.nutrient_id == nid)) = true := by
    obtain ⟨ri, hri, inv, hinv, hid⟩ := h
    exact List.any_eq_true.mpr
      ⟨ri, hri, List.any_eq_true.mpr ⟨inv, hinv, by simpa using hid⟩⟩
  obtain ⟨e, he, hkey⟩ := exists_mem_accRows r.ingredients nid hany
  refine ⟨(finalize (effectiveWeight r.ingredients) r.serving_size e).2, ?_⟩
  have hpair : (nid, (finalize (effectiveWeight r.ingredients) r.serving_size e).2) =
      finalize (effectiveWeight r.ingredients) r.serving_size e := by
    unfold finalize
    rw [hkey]
  rw [hpair]
  simp only [calculate_nutrition]
  exact List.mem_map.mpr ⟨e, he, rfl⟩

/-! ## Concrete scenario data (spec §8) -/

def energyNutrient : Nutrient := { name := "Energy", unit := "kcal", daily_value := some 2000 }

def sodiumNutrient : Nutrient := { name := "Sodium", unit := "mg", daily_value := some 2000 }

def riceRow : RecipeIngredient :=
  { name := "Rice", weight_grams := 100,
    nutrients := [{ nutrient_id := 1, nutrient := energyNutrient, value_per_100g := 345 }] }

def saltRow : RecipeIngredient :=
  { name := "Salt", weight_grams := 5,
    nutrients := [{ nutrient_id := 2, nutrient := sodiumNutrient, value_per_100g := 38758 }] }

/-- The rice-and-salt scenario recipe of spec §8. -/
def exampleRecipe : Recipe :=
  { serving_size := 100, serving_unit := "g", servings_per_pack := 1,
    allergen_info := "", fssai_license := "", ingredients := [riceRow, saltRow] }

def exampleEnergyResult : NutrientResult :=
  { nutrient := energyNutrient, total_value := 345, per_serving := 328.57,
    per_100g := 328.57, percent_dv := some 16.4 }

def exampleSodiumResult : NutrientResult :=
  { nutrient := sodiumNutrient, total_value := 1937.9, per_serving := 1845.62,
    per_100g := 1845.62, percent_dv := some 92.3 }

/-- The aggregated nutrition of the scenario recipe, fully evaluated. -/
def exampleNutrition : List (ℕ × NutrientResult) :=
  [(1, exampleEnergyResult), (2, exampleSodiumResult)]

theorem calculate_nutrition_example :
    calculate_nutrition exampleRecipe = exampleNutrition := by
  simp only [calculate_nutrition, exampleRecipe, riceRow, saltRow, accRows, accIng,
    addValue, updateKey, accHas, List.any_cons, List.any_nil, finalize, effectiveWeight,
    totalWeight, List.map_cons, List.map_nil, List.sum_cons, List.sum_nil,
    energyNutrient, sodiumNutrient, pyRound, round_eq, exampleNutrition,
    exampleEnergyResult, exampleSodiumResult]
  norm_num [finalize, pyRound, round_eq]

theorem fop_example :
    (get_fop_indicators exampleNutrition).map (fun i => (i.nutrient, i.level, i.color)) =
      [("Total Fat", "LOW", "green"), ("Saturated Fat", "LOW", "green"),
       ("Total Sugars", "LOW", "green"), ("Sodium", "HIGH", "red")] := by
  simp only [get_fop_indicators, per100gDict, dictInsert, dictGetD, dictFind?, fopChecks,
    exampleNutrition, exampleEnergyResult, exampleSodiumResult, energyNutrient,
    sodiumNutrient, List.foldl_cons, List.foldl_nil, List.any_cons, List.any_nil,
    List.find?_cons, List.find?_nil, List.map_cons, List.map_nil]
  simp
  norm_num [HIGH_FAT_THRESHOLD, HIGH_SUGAR_THRESHOLD, HIGH_SODIUM_THRESHOLD,
    HIGH_SATURATED_FAT_THRESHOLD]

/-- C1: for every recipe with positive total ingredient weight, each reported
nutrient's `per_serving` and `per_100g` follow the rounded aggregate formulas
`round((total/total_weight)*serving_size, 2)` and `round((total/total_weight)*100, 2)`
with `total` the sum of `(weight/100)*value_per_100g` over ingredient rows;
every contributed nutrient is reported; and on the rice/salt scenario recipe
(total weight 105, serving size 100) Energy's per-100g is 328.57, Sodium's is
1845.62, which the FOP classifier rates HIGH with color red. -/
theorem claim_C1 :
    (∀ (r : Recipe) (nid : ℕ) (res : NutrientResult),
        0 < totalWeight r.ingredients →
        (nid, res) ∈ calculate_nutrition r →
        res.per_serving = pyRound 2 (nutrientTotal r.ingredients nid /
            totalWeight r.ingredients * r.serving_size) ∧
        res.per_100g = pyRound 2 (nutrientTotal r.ingredients nid /
            totalWeight r.ingredients * 100)) ∧
    (∀ (r : Recipe) (nid : ℕ),
        (∃ ri ∈ r.ingredients, ∃ inv ∈ ri.nutrients, inv.nutrient_id = nid) →
        ∃ res : NutrientResult, (nid, res) ∈ calculate_nutrition r) ∧
    (totalWeight exampleRecipe.ingredients = 105 ∧
      (calculate_nutrition exampleRecipe).map
          (fun p => (p.1, p.2.nutrient.name, p.2.per_100g)) =
        [(1, "Energy", 328.57), (2, "Sodium", 1845.62)] ∧
      (get_fop_indicators (calculate_nutrition exampleRecipe)).map
          (fun i => (i.nutrient, i.level, i.color)) =
        [("Total Fat", "LOW", "green"), ("Saturated Fat", "LOW", "green"),
         ("Total Sugars", "LOW", "green"), ("Sodium", "HIGH", "red")]) := by
  refine ⟨?_, calc_exists, ?_, ?_, ?_⟩
  · intro r nid res htw hmem
    have heff : effectiveWeight r.ingredients = totalWeight r.ingredients := by
      unfold effectiveWeight
      rw [if_neg (ne_of_gt htw)]
    have h := calc_mem_formula r nid res hmem
    rw [heff] at h
    exact ⟨h.1, h.2.1⟩
  · norm_num [totalWeight, exampleRecipe, riceRow, saltRow]
  · rw [calculate_nutrition_example]
    simp [exampleNutrition, exampleEnergyResult, exampleSodiumResult,
      energyNutrient, sodiumNutrient]
  · rw [calculate_nutrition_example]
    exact fop_example

/-- Witness for C1: the universal parts instantiated on the scenario recipe's
Sodium row. -/
theorem claim_C1_witness :
    (exampleSodiumResult.per_serving =
        pyRound 2 (nutrientTotal exampleRecipe.ingredients 2 /
          totalWeight exampleRecipe.ingredients * exampleRecipe.serving_size) ∧
      exampleSodiumResult.per_100g =
        pyRound 2 (nutrientTotal exampleRecipe.ingredients 2 /
          totalWeight exampleRecipe.ingredients * 100)) ∧
    (∃ res : NutrientResult, (2, res) ∈ calculate_nutrition exampleRecipe) :=
  ⟨claim_C1.1 exampleRecipe 2 exampleSodiumResult
      (by norm_num [totalWeight, exampleRecipe, riceRow, saltRow])
      (by rw [calculate_nutrition_example]; simp [exampleNutrition]),
   claim_C1.2.1 exampleRecipe 2
      ⟨saltRow, by simp [exampleRecipe],
        { nutrient_id := 2, nutrient := sodiumNutrient, value_per_100g := 38758 },
        by simp [saltRow], rfl⟩⟩

/-- A recipe with no ingredient rows at all. -/
def emptyRecipe : Recipe :=
  { serving_size := 100, serving_unit := "g", servings_per_pack := 1,
    allergen_info := "", fssai_license := "", ingredients := [] }

/-- C5: the aggregator is total on degenerate input: an empty ingredient list
yields an empty result mapping, and a zero total weight is replaced by the
divisor 1, which is never zero, so no division by zero can occur. -/
theorem claim_C5 :
    (∀ r : Recipe, r.ingredients = [] → calculate_nutrition r = []) ∧
    (∀ rows : List RecipeIngredient, totalWeight rows = 0 → effectiveWeight rows = 1) ∧
    (∀ rows : List RecipeIngredient, effectiveWeight rows ≠ 0) := by
  refine ⟨?_, ?_, ?_⟩
  · intro r h
    simp [calculate_nutrition, h, accRows]
  · intro rows h
    simp [effectiveWeight, h]
  · intro rows
    unfold effectiveWeight
    split
    · exact one_ne_zero
    · next h => exact h

/-- Witness for C5: the empty recipe. -/
theorem claim_C5_witness :
    calculate_nutrition emptyRecipe = [] ∧ effectiveWeight [] = 1 ∧
      effectiveWeight [] ≠ 0 :=
  ⟨claim_C5.1 emptyRecipe rfl, claim_C5.2.1 [] (by simp [totalWeight]),
   claim_C5.2.2 []⟩

/-- C7: a reported nutrient's `percent_dv` is present exactly when its
`daily_value` is set and non-zero (a null daily value yields an absent
percent-DV, never 0). -/
theorem claim_C7 (r : Recipe) (nid : ℕ) (res : NutrientResult)
    (hmem : (nid, res) ∈ calculate_nutrition r) :
    res.percent_dv.isSome = true ↔
      ∃ dv : ℚ, res.nutrient.daily_value = some dv ∧ dv ≠ 0 := by
  simp only [calculate_nutrition] at hmem
  obtain ⟨e, he, heq⟩ := List.mem_map.mp hmem
  unfold finalize at heq
  injection heq with ha hb
  subst hb
  cases hdv : e.2.1.daily_value with
  | none => simp [hdv]
  | some dv =>
    by_cases h0 : dv = 0
    · simp [hdv, h0]
    · simp [hdv, h0]

/-- Witness for C7: the scenario recipe's Energy row (daily value 2000). -/
theorem claim_C7_witness :
    exampleEnergyResult.percent_dv.isSome = true ↔
      ∃ dv : ℚ, exampleEnergyResult.nutrient.daily_value = some dv ∧ dv ≠ 0 :=
  claim_C7 exampleRecipe 1 exampleEnergyResult
    (by rw [calculate_nutrition_example]; simp [exampleNutrition])

/-- C2: `check_all`'s verdict is `true` exactly when the accumulated issue
list is empty; the verdict is a function of the issue list alone, so the
warnings and info lists never affect it. -/
theorem claim_C2 :
    (∀ (r : Recipe) (nd : List (ℕ × NutrientResult)),
        (check_all r nd).is_compliant = true ↔ (check_all r nd).issues = []) ∧
    (∀ (r₁ r₂ : Recipe) (nd₁ nd₂ : List (ℕ × NutrientResult)),
        (check_all r₁ nd₁).issues = (check_all r₂ nd₂).issues →
        (check_all r₁ nd₁).is_compliant = (check_all r₂ nd₂).is_compliant) := by
  have hkey : ∀ (r : Recipe) (nd : List (ℕ × NutrientResult)),
      (check_all r nd).is_compliant = ((check_all r nd).issues.length == 0) := by
    intro r nd
    rfl
  constructor
  · intro r nd
    rw [hkey]
    simp [List.length_eq_zero]
  · intro r₁ r₂ nd₁ nd₂ h
    rw [hkey, hkey, h]

/-- Witness for C2: two identical invocations on the scenario recipe. -/
theorem claim_C2_witness :
    (check_all exampleRecipe exampleNutrition).is_compliant =
      (check_all exampleRecipe exampleNutrition).is_compliant :=
  claim_C2.2 exampleRecipe exampleRecipe exampleNutrition exampleNutrition rfl

/-- C10: the license check validates the stripped string: a whitespace-only
license behaves exactly like a missing one (the no-license warning), and a
14-digit license surrounded by whitespace is format-valid (info note, no
warning). -/
theorem claim_C10 :
    (∀ s : String, pyStrip s = "" →
        check_fssai_license s = check_fssai_license "" ∧
        check_fssai_license s =
          (["FSSAI LICENSE: No FSSAI license number provided. " ++
            "Required on all packaged food products."], [])) ∧
    (∀ s : String, (pyStrip s).length = 14 →
        (∀ c ∈ (pyStrip s).toList, c.isDigit) →
        check_fssai_license s =
          ([], ["FSSAI LICENSE: " ++ pyStrip s ++ " (format valid)."])) := by
  constructor
  · intro s h
    unfold check_fssai_license
    rw [h]
    rw [show pyStrip "" = "" from rfl]
    simp
  · intro s hlen hdig
    unfold check_fssai_license
    have hne : ¬ (pyStrip s = "") := by
      intro hc
      rw [hc] at hlen
      simp at hlen
    have hdigit : pyIsdigit (pyStrip s) = true := by
      unfold pyIsdigit
      rw [hlen]
      simp only [List.all_eq_true, Bool.and_eq_true, decide_eq_true_eq]
      exact ⟨by norm_num, hdig⟩
    have hcond : ¬ ((pyStrip s).length ≠ 14 ∨ pyIsdigit (pyStrip s) = false) := by
      rintro (h1 | h2)
      · exact h1 hlen
      · rw [hdigit] at h2
        cases h2
    rw [if_neg hne, if_neg hcond]

/-- Witness for C10: a whitespace-only license and a padded 14-digit one. -/
theorem claim_C10_witness :
    (check_fssai_license "   " = check_fssai_license "" ∧
      check_fssai_license "   " =
        (["FSSAI LICENSE: No FSSAI license number provided. " ++
          "Required on all packaged food products."], [])) ∧
    check_fssai_license "  12345678901234  " =
      ([], ["FSSAI LICENSE: " ++ pyStrip "  12345678901234  " ++ " (format valid)."]) :=
  ⟨claim_C10.1 "   " (by decide),
   claim_C10.2 "  12345678901234  " (by decide) (by decide)⟩

/-- A numbered finding line always begins with two spaces, so it is never the
affirmative all-passed line. -/
theorem numbered_ne_allPassed (i : ℕ) (s : String) :
    "  " ++ toString (i + 1) ++ ". " ++ s ≠ allPassedLine := by
  intro h
  have hd := congrArg String.data h
  rw [String.data_append, String.data_append, String.data_append] at hd
  have hh := congrArg List.head? hd
  rw [show ("  ".data) = [' ', ' '] from rfl] at hh
  simp only [List.cons_append, List.head?_cons] at hh
  rw [show allPassedLine.data.head? = some '✓' from rfl] at hh
  exact absurd hh (by decide)

theorem mem_numberLines_ne_allPassed (xs : List String) (x : String)
    (hx : x ∈ numberLines xs) : x ≠ allPassedLine := by
  obtain ⟨p, hp, hpe⟩ := List.mem_map.mp hx
  exact hpe ▸ numbered_ne_allPassed p.1 p.2

theorem allPassed_not_in_section (xs : List String) (c : Prop) [Decidable c]
    (hdr : String) (hne : hdr ≠ allPassedLine) :
    allPassedLine ∉ (if c then ([] : List String) else hdr :: numberLines xs) := by
  split
  · simp
  · intro hmem
    rcases List.mem_cons.mp hmem with h | h
    · exact hne h.symm
    · exact mem_numberLines_ne_allPassed xs _ h rfl

theorem numbered_mem_numberLines (xs : List String) (i : ℕ) (hi : i < xs.length) :
    ("  " ++ toString (i + 1) ++ ". " ++ xs[i]) ∈ numberLines xs := by
  unfold numberLines
  refine List.mem_map.mpr ⟨(i, xs[i]), ?_, rfl⟩
  rw [← List.getElem_enum xs i (by simpa using hi)]
  exact List.getElem_mem _

/-- C8: the formatted notes are the newline-join of `notesLines`, which holds
a headed, numbered section for each non-empty list among issues, warnings and
info, and the affirmative all-passed line exactly when both the issue and
warning lists are empty. -/
theorem claim_C8 (issues warnings info : List String) :
    format_notes issues warnings info =
      String.intercalate "\n" (notesLines issues warnings info) ∧
    (issues ≠ [] →
      "=== COMPLIANCE ISSUES (Must Fix) ===" ∈ notesLines issues warnings info ∧
      ∀ (i : ℕ) (hi : i < issues.length),
        ("  " ++ toString (i + 1) ++ ". " ++ issues[i]) ∈
          notesLines issues warnings info) ∧
    (warnings ≠ [] →
      "\n=== WARNINGS (Recommended) ===" ∈ notesLines issues warnings info ∧
      ∀ (i : ℕ) (hi : i < warnings.length),
        ("  " ++ toString (i + 1) ++ ". " ++ warnings[i]) ∈
          notesLines issues warnings info) ∧
    (info ≠ [] →
      "\n=== INFO ===" ∈ notesLines issues warnings info ∧
      ∀ (i : ℕ) (hi : i < info.length),
        ("  " ++ toString (i + 1) ++ ". " ++ info[i]) ∈
          notesLines issues warnings info) ∧
    (allPassedLine ∈ notesLines issues warnings info ↔
      issues = [] ∧ warnings = []) := by
  refine ⟨rfl, ?_, ?_, ?_, ?_, ?_⟩
  · intro hne
    constructor
    · unfold notesLines
      rw [if_neg hne]
      exact List.mem_append_left _ (List.mem_append_left _
        (List.mem_append_left _ (List.mem_cons_self _ _)))
    · intro i hi
      unfold notesLines
      rw [if_neg hne]
      exact List.mem_append_left _ (List.mem_append_left _
        (List.mem_append_left _
          (List.mem_cons_of_mem _ (numbered_mem_numberLines issues i hi))))
  · intro hne
    constructor
    · unfold notesLines
      rw [if_neg hne]
      exact List.mem_append_left _ (List.mem_append_left _
        (List.mem_append_right _ (List.mem_cons_self _ _)))
    · intro i hi
      unfold notesLines
      rw [if_neg hne]
      exact List.mem_append_left _ (List.mem_append_left _
        (List.mem_append_right _
          (List.mem_cons_of_mem _ (numbered_mem_numberLines warnings i hi))))
  · intro hne
    constructor
    · unfold notesLines
      rw [if_neg hne]
      exact List.mem_append_left _ (List.mem_append_right _ (List.mem_cons_self _ _))
    · intro i hi
      unfold notesLines
      rw [if_neg hne]
      exact List.mem_append_left _ (List.mem_append_right _
        (List.mem_cons_of_mem _ (numbered_mem_numberLines info i hi)))
  · intro hmem
    by_cases hbot : issues = [] ∧ warnings = []
    · exact hbot
    · exfalso
      unfold notesLines at hmem
      rw [if_neg hbot, List.append_nil] at hmem
      rcases List.mem_append.mp hmem with h12 | h3
      · rcases List.mem_append.mp h12 with h1 | h2
        · exact allPassed_not_in_section issues _
            "=== COMPLIANCE ISSUES (Must Fix) ===" (by decide) h1
        · exact allPassed_not_in_section warnings _
            "\n=== WARNINGS (Recommended) ===" (by decide) h2
      · exact allPassed_not_in_section info _ "\n=== INFO ===" (by decide) h3
  · rintro ⟨hI, hW⟩
    unfold notesLines
    rw [if_pos hI, if_pos hW, if_pos (And.intro hI hW)]
    simp

/-- Witness for C8: one issue and one info note. -/
theorem claim_C8_witness :
    "=== COMPLIANCE ISSUES (Must Fix) ===" ∈
      notesLines ["SERVING SIZE: Must be declared as per FSSAI regulations."] [] [] ∧
    ("  " ++ toString (0 + 1) ++ ". " ++
        (["SERVING SIZE: Must be declared as per FSSAI regulations."] : List String)[0]) ∈
      notesLines ["SERVING SIZE: Must be declared as per FSSAI regulations."] [] [] ∧
    (allPassedLine ∈ notesLines [] [] ["ALLERGEN DECLARATION: Provided."] ↔
      ([] : List String) = [] ∧ ([] : List String) = []) :=
  ⟨((claim_C8 ["SERVING SIZE: Must be declared as per FSSAI regulations."] [] []).2.1
      (by simp)).1,
   ((claim_C8 ["SERVING SIZE: Must be declared as per FSSAI regulations."] [] []).2.1
      (by simp)).2 0 (by simp),
   (claim_C8 [] [] ["ALLERGEN DECLARATION: Provided."]).2.2.2.2⟩

/-! ## Dict lookup lemmas (Python dict semantics) -/

theorem dictFind?_cons {α : Type} (e : String × α) (t : List (String × α)) (k : String) :
    dictFind? (e :: t) k = if (e.1 == k) = true then some e.2 else dictFind? t k := by
  unfold dictFind?
  by_cases h : (e.1 == k) = true
  · rw [List.find?_cons_of_pos t (show (fun (x : String × α) => x.1 == k) e = true from h),
      if_pos h]
    rfl
  · rw [List.find?_cons_of_neg t (show ¬ (fun (x : String × α) => x.1 == k) e = true from h),
      if_neg h]

theorem dictFind?_mapReplace_ne {α : Type} (d : List (String × α)) (k k' : String) (v : α)
    (hne : ¬ ((k' == k) = true)) :
    dictFind? (d.map (fun e => if e.1 == k' then (k', v) else e)) k = dictFind? d k := by
  induction d with
  | nil => rfl
  | cons e t ih =>
    rw [List.map_cons, dictFind?_cons, dictFind?_cons]
    by_cases he : (e.1 == k') = true
    · have hek : ¬ ((e.1 == k) = true) := by
        intro hc
        apply hne
        have h1 : e.1 = k' := by simpa using he
        have h2 : e.1 = k := by simpa using hc
        simp [← h1, h2]
      rw [if_pos he]
      have hc2 : ¬ (((k', v).1 == k) = true) := hne
      rw [if_neg hc2, if_neg hek]
      exact ih
    · rw [if_neg he]
      by_cases hk : (e.1 == k) = true
      · rw [if_pos hk, if_pos hk]
      · rw [if_neg hk, if_neg hk]
        exact ih

theorem dictFind?_mapReplace_eq {α : Type} (d : List (String × α)) (k' : String) (v : α)
    (hh : (d.any (fun e => e.1 == k')) = true) :
    dictFind? (d.map (fun e => if e.1 == k' then (k', v) else e)) k' = some v := by
  induction d with
  | nil => simp [List.any_nil] at hh
  | cons e t ih =>
    rw [List.map_cons, dictFind?_cons]
    by_cases he : (e.1 == k') = true
    · rw [if_pos he]
      have hp : (((k', v).1 == k') = true) := by simp
      rw [if_pos hp]
    · rw [if_neg he, if_neg he]
      apply ih
      rw [List.any_cons] at hh
      simpa [he] using hh

theorem dictFind?_dictInsert {α : Type} (d : List (String × α)) (k k' : String) (v : α) :
    dictFind? (dictInsert d k' v) k =
      if (k' == k) = true then some v else dictFind? d k := by
  unfold dictInsert
  by_cases hh : (d.any (fun e => e.1 == k')) = true
  · rw [if_pos hh]
    by_cases hkk : (k' == k) = true
    · have hk : k' = k := by simpa using hkk
      subst hk
      rw [if_pos hkk]
      exact dictFind?_mapReplace_eq d k' v hh
    · rw [if_neg hkk]
      exact dictFind?_mapReplace_ne d k k' v hkk
  · rw [if_neg hh]
    by_cases hkk : (k' == k) = true
    · have hk : k' = k := by simpa using hkk
      subst hk
      rw [if_pos hkk]
      unfold dictFind?
      rw [List.find?_append]
      have hf : d.find? (fun e => e.1 == k') = none := by
        rw [List.find?_eq_none]
        intro e he hc
        exact hh (List.any_eq_true.mpr ⟨e, he, hc⟩)
      rw [hf]
      simp [List.find?_cons]
    · rw [if_neg hkk]
      unfold dictFind?
      rw [List.find?_append]
      cases hf : d.find? (fun e => e.1 == k) with
      | some e => simp [hf]
      | none => simp [hf, List.find?_cons, hkk]

theorem dictFind?_foldl_insert_none {α β : Type} (l : List β) (key : β → String)
    (val : β → α) (d : List (String × α)) (k : String)
    (hl : ∀ x ∈ l, ¬ ((key x == k) = true)) (hd : dictFind? d k = none) :
    dictFind? (l.foldl (fun d x => dictInsert d (key x) (val x)) d) k = none := by
  induction l generalizing d with
  | nil => exact hd
  | cons x t ih =>
    rw [List.foldl_cons]
    apply ih
    · intro y hy
      exact hl y (List.mem_cons_of_mem _ hy)
    · rw [dictFind?_dictInsert, if_neg (hl x (List.mem_cons_self _ _))]
      exact hd

theorem dictFind?_foldl_insert_some {α β : Type} (l : List β) (key : β → String)
    (val : β → α) (d : List (String × α)) (k : String) (n : α)
    (h : dictFind? (l.foldl (fun d x => dictInsert d (key x) (val x)) d) k = some n) :
    (∃ x ∈ l, key x = k ∧ n = val x) ∨ dictFind? d k = some n := by
  induction l generalizing d with
  | nil => exact Or.inr h
  | cons x t ih =>
    rw [List.foldl_cons] at h
    rcases ih _ h with hx | hd
    · obtain ⟨y, hy, hk, hv⟩ := hx
      exact Or.inl ⟨y, List.mem_cons_of_mem _ hy, hk, hv⟩
    · rw [dictFind?_dictInsert] at hd
      by_cases hkk : ((key x == k) = true)
      · rw [if_pos hkk] at hd
        exact Or.inl ⟨x, List.mem_cons_self _ _, by simpa using hkk,
          (Option.some.inj hd).symm⟩
      · rw [if_neg hkk] at hd
        exact Or.inr hd

/-! ## C4: the FOP classifier -/

/-- The threshold the spec tabulates for each indicator nutrient. -/
def fopThresholdOf (name : String) : ℚ :=
  if name = "Total Fat" then HIGH_FAT_THRESHOLD
  else if name = "Saturated Fat" then HIGH_SATURATED_FAT_THRESHOLD
  else if name = "Total Sugars" then HIGH_SUGAR_THRESHOLD
  else if name = "Sodium" then HIGH_SODIUM_THRESHOLD
  else 0

/-- The three-way threshold split used by `get_fop_indicators`. -/
theorem fop_classify (v thr : ℚ) (hthr : 0 < thr) :
    (v > thr →
      (if v > thr then (("HIGH", "red") : String × String)
       else if v > thr * 0.5 then ("MEDIUM", "amber")
       else ("LOW", "green")) = ("HIGH", "red")) ∧
    (thr * 0.5 < v ∧ v ≤ thr →
      (if v > thr then (("HIGH", "red") : String × String)
       else if v > thr * 0.5 then ("MEDIUM", "amber")
       else ("LOW", "green")) = ("MEDIUM", "amber")) ∧
    (v ≤ thr * 0.5 →
      (if v > thr then (("HIGH", "red") : String × String)
       else if v > thr * 0.5 then ("MEDIUM", "amber")
       else ("LOW", "green")) = ("LOW", "green")) := by
  refine ⟨?_, ?_, ?_⟩
  · intro h
    rw [if_pos h]
  · rintro ⟨h1, h2⟩
    rw [if_neg (by linarith : ¬ v > thr), if_pos h1]
  · intro h
    rw [if_neg (by nlinarith : ¬ v > thr), if_neg (by linarith : ¬ v > thr * 0.5)]

/-- C4: the classifier always returns the four indicators in the fixed order
Total Fat, Saturated Fat, Total Sugars, Sodium with thresholds 17.5, 5, 22.5
and 600; each takes the nutrient's per-100g value (0 when absent) and is
rated HIGH/red above the threshold, MEDIUM/amber above half the threshold,
and LOW/green at or below half the threshold. -/
theorem claim_C4 (nd : List (ℕ × NutrientResult)) :
    ((get_fop_indicators nd).map (fun i => i.nutrient) =
      ["Total Fat", "Saturated Fat", "Total Sugars", "Sodium"]) ∧
    (fopThresholdOf "Total Fat" = 17.5 ∧ fopThresholdOf "Saturated Fat" = 5.0 ∧
      fopThresholdOf "Total Sugars" = 22.5 ∧ fopThresholdOf "Sodium" = 600) ∧
    (∀ name : String, (∀ p ∈ nd, p.2.nutrient.name ≠ name) →
      dictGetD (per100gDict nd) name 0 = 0) ∧
    (∀ ind ∈ get_fop_indicators nd,
      ind.value = dictGetD (per100gDict nd) ind.nutrient 0 ∧
      (ind.value > fopThresholdOf ind.nutrient →
        ind.level = "HIGH" ∧ ind.color = "red") ∧
      (fopThresholdOf ind.nutrient * 0.5 < ind.value ∧
          ind.value ≤ fopThresholdOf ind.nutrient →
        ind.level = "MEDIUM" ∧ ind.color = "amber") ∧
      (ind.value ≤ fopThresholdOf ind.nutrient * 0.5 →
        ind.level = "LOW" ∧ ind.color = "green")) := by
  refine ⟨?_, ?_, ?_, ?_⟩
  · simp [get_fop_indicators, fopChecks]
  · refine ⟨?_, ?_, ?_, ?_⟩ <;>
      simp [fopThresholdOf, HIGH_FAT_THRESHOLD, HIGH_SATURATED_FAT_THRESHOLD,
        HIGH_SUGAR_THRESHOLD, HIGH_SODIUM_THRESHOLD]
  · intro name hne
    unfold dictGetD
    have hnone : dictFind? (per100gDict nd) name = none := by
      unfold per100gDict
      apply dictFind?_foldl_insert_none
      · intro x hx
        simpa using hne x hx
      · rfl
    rw [hnone]
    rfl
  · intro ind hmem
    simp only [get_fop_indicators, fopChecks, List.map_cons, List.map_nil,
      List.mem_cons, List.not_mem_nil, or_false] at hmem
    have hfat : fopThresholdOf "Total Fat" = HIGH_FAT_THRESHOLD := by
      simp [fopThresholdOf]
    have hsat : fopThresholdOf "Saturated Fat" = HIGH_SATURATED_FAT_THRESHOLD := by
      simp [fopThresholdOf]
    have hsug : fopThresholdOf "Total Sugars" = HIGH_SUGAR_THRESHOLD := by
      simp [fopThresholdOf]
    have hsod : fopThresholdOf "Sodium" = HIGH_SODIUM_THRESHOLD := by
      simp [fopThresholdOf]
    rcases hmem with rfl | rfl | rfl | rfl
    · have hcl := fop_classify (dictGetD (per100gDict nd) "Total Fat" 0)
        HIGH_FAT_THRESHOLD (by norm_num [HIGH_FAT_THRESHOLD])
      refine ⟨rfl, ?_, ?_, ?_⟩
      · intro h
        rw [hfat] at h
        simp only [hfat]
        rw [hcl.1 h]
        exact ⟨rfl, rfl⟩
      · intro h
        rw [hfat] at h
        rw [hcl.2.1 h]
        exact ⟨rfl, rfl⟩
      · intro h
        rw [hfat] at h
        rw [hcl.2.2 h]
        exact ⟨rfl, rfl⟩
    · have hcl := fop_classify (dictGetD (per100gDict nd) "Saturated Fat" 0)
        HIGH_SATURATED_FAT_THRESHOLD (by norm_num [HIGH_SATURATED_FAT_THRESHOLD])
      refine ⟨rfl, ?_, ?_, ?_⟩
      · intro h
        rw [hsat] at h
        rw [hcl.1 h]
        exact ⟨rfl, rfl⟩
      · intro h
        rw [hsat] at h
        rw [hcl.2.1 h]
        exact ⟨rfl, rfl⟩
      · intro h
        rw [hsat] at h
        rw [hcl.2.2 h]
        exact ⟨rfl, rfl⟩
    · have hcl := fop_classify (dictGetD (per100gDict nd) "Total Sugars" 0)
        HIGH_SUGAR_THRESHOLD (by norm_num [HIGH_SUGAR_THRESHOLD])
      refine ⟨rfl, ?_, ?_, ?_⟩
      · intro h
        rw [hsug] at h
        rw [hcl.1 h]
        exact ⟨rfl, rfl⟩
      · intro h
        rw [hsug] at h
        rw [hcl.2.1 h]
        exact ⟨rfl, rfl⟩
      · intro h
        rw [hsug] at h
        rw [hcl.2.2 h]
        exact ⟨rfl, rfl⟩
    · have hcl := fop_classify (dictGetD (per100gDict nd) "Sodium" 0)
        HIGH_SODIUM_THRESHOLD (by norm_num [HIGH_SODIUM_THRESHOLD])
      refine ⟨rfl, ?_, ?_, ?_⟩
      · intro h
        rw [hsod] at h
        rw [hcl.1 h]
        exact ⟨rfl, rfl⟩
      · intro h
        rw [hsod] at h
        rw [hcl.2.1 h]
        exact ⟨rfl, rfl⟩
      · intro h
        rw [hsod] at h
        rw [hcl.2.2 h]
        exact ⟨rfl, rfl⟩

/-- The full indicators of the scenario nutrition, fully evaluated. -/
theorem get_fop_indicators_example :
    get_fop_indicators exampleNutrition =
      [⟨"Total Fat", 0, "g", "LOW", "green"⟩,
       ⟨"Saturated Fat", 0, "g", "LOW", "green"⟩,
       ⟨"Total Sugars", 0, "g", "LOW", "green"⟩,
       ⟨"Sodium", 1845.62, "mg", "HIGH", "red"⟩] := by
  simp only [get_fop_indicators, per100gDict, dictInsert, dictGetD, dictFind?, fopChecks,
    exampleNutrition, exampleEnergyResult, exampleSodiumResult, energyNutrient,
    sodiumNutrient, List.foldl_cons, List.foldl_nil, List.any_cons, List.any_nil,
    List.find?_cons, List.find?_nil, List.map_cons, List.map_nil]
  simp
  norm_num [HIGH_FAT_THRESHOLD, HIGH_SUGAR_THRESHOLD, HIGH_SODIUM_THRESHOLD,
    HIGH_SATURATED_FAT_THRESHOLD]

/-- Witness for C4: the scenario's Sodium indicator is rated HIGH/red. -/
theorem claim_C4_witness :
    (FOPIndicator.mk "Sodium" 1845.62 "mg" "HIGH" "red").level = "HIGH" ∧
    (FOPIndicator.mk "Sodium" 1845.62 "mg" "HIGH" "red").color = "red" :=
  ((claim_C4 exampleNutrition).2.2.2 (FOPIndicator.mk "Sodium" 1845.62 "mg" "HIGH" "red")
      (by rw [get_fop_indicators_example]; simp)).2.1
    (by simp [fopThresholdOf]; norm_num [HIGH_SODIUM_THRESHOLD])

/-! ## C3: mandatory nutrients -/

theorem mandatory_nodup : MANDATORY_NUTRIENTS.Nodup := by decide

theorem missingMsg_injective : Function.Injective missingMandatoryIssueMsg := by
  intro a b h
  unfold missingMandatoryIssueMsg at h
  have hd := congrArg String.data h
  simp only [String.data_append, List.append_assoc] at hd
  have h1 := List.append_cancel_left hd
  have h2 := List.append_cancel_left h1
  exact String.ext (List.append_cancel_right h2)

/-- The missing-mandatory issue appears exactly once per absent mandatory
name and never for a present one. -/
theorem check_mandatory_count (nd : List (ℕ × NutrientResult)) (mn : String)
    (hmn : mn ∈ MANDATORY_NUTRIENTS) :
    (check_mandatory_nutrients nd).count (missingMandatoryIssueMsg mn) =
      if mn ∈ presentNames nd then 0 else 1 := by
  unfold check_mandatory_nutrients
  rw [List.count_map_of_injective _ _ missingMsg_injective]
  by_cases h : mn ∈ presentNames nd
  · rw [if_pos h, List.count_eq_zero]
    intro hmem
    have hp := List.of_mem_filter hmem
    rw [Bool.not_eq_true', List.contains_eq_any_beq, List.any_eq_false] at hp
    exact absurd (by simp : (mn == mn) = true) (by simpa using hp mn h)
  · rw [if_neg h]
    have hpred : (fun s => !((presentNames nd).contains s)) mn = true := by
      rw [Bool.not_eq_true', List.contains_eq_any_beq, List.any_eq_false]
      intro x hx
      simp only [beq_iff_eq]
      intro hc
      exact h (hc ▸ hx)
    have hcf : List.count mn (List.filter
        (fun s => !((presentNames nd).contains s)) MANDATORY_NUTRIENTS) =
        List.count mn MANDATORY_NUTRIENTS := List.count_filter hpred
    rw [hcf]
    exact List.count_eq_one_of_mem mandatory_nodup hmn

/-- A degenerate all-zero nutrient row for the C3 scenario. -/
def c3Result (n : String) (u : String) : NutrientResult :=
  { nutrient := { name := n, unit := u, daily_value := none }, total_value := 0,
    per_serving := 0, per_100g := 0, percent_dv := none }

/-- Nutrition data carrying 7 of the 10 mandatory nutrients (Trans Fat,
Added Sugars and Dietary Fibre are absent). -/
def c3Nutrition : List (ℕ × NutrientResult) :=
  [(1, c3Result "Energy" "kcal"), (2, c3Result "Total Fat" "g"),
   (3, c3Result "Saturated Fat" "g"), (4, c3Result "Total Carbohydrate" "g"),
   (5, c3Result "Total Sugars" "g"), (6, c3Result "Protein" "g"),
   (7, c3Result "Sodium" "mg")]

/-- A recipe whose other declarations are all in order. -/
def c3Recipe : Recipe :=
  { serving_size := 100, serving_unit := "g", servings_per_pack := 1,
    allergen_info := "contains milk", fssai_license := "12345678901234",
    ingredients := [riceRow] }

/-- C3: the checker emits exactly one MISSING MANDATORY NUTRIENT issue per
absent mandatory name and none for present ones; a result missing exactly
Trans Fat, Added Sugars and Dietary Fibre yields `is_compliant = False` with
exactly those 3 issues. -/
theorem claim_C3 :
    (∀ (nd : List (ℕ × NutrientResult)) (mn : String), mn ∈ MANDATORY_NUTRIENTS →
      (check_mandatory_nutrients nd).count (missingMandatoryIssueMsg mn) =
        if mn ∈ presentNames nd then 0 else 1) ∧
    (check_all c3Recipe c3Nutrition).issues =
      [missingMandatoryIssueMsg "Trans Fat", missingMandatoryIssueMsg "Added Sugars",
       missingMandatoryIssueMsg "Dietary Fibre"] ∧
    (check_all c3Recipe c3Nutrition).is_compliant = false := by
  have hissues : (check_all c3Recipe c3Nutrition).issues =
      [missingMandatoryIssueMsg "Trans Fat", missingMandatoryIssueMsg "Added Sugars",
       missingMandatoryIssueMsg "Dietary Fibre"] := by
    simp only [check_all, check_mandatory_nutrients, MANDATORY_NUTRIENTS, presentNames,
      c3Nutrition, c3Result, c3Recipe, check_serving_size_declaration,
      check_ingredient_list, List.map_cons, List.map_nil, List.filter_cons,
      List.filter_nil]
    simp
  refine ⟨check_mandatory_count, hissues, ?_⟩
  have : (check_all c3Recipe c3Nutrition).is_compliant =
      ((check_all c3Recipe c3Nutrition).issues.length == 0) := rfl
  rw [this, hissues]
  rfl

/-- Witness for C3: the Trans Fat count on the scenario data. -/
theorem claim_C3_witness :
    (check_mandatory_nutrients c3Nutrition).count (missingMandatoryIssueMsg "Trans Fat") =
      if "Trans Fat" ∈ presentNames c3Nutrition then 0 else 1 :=
  claim_C3.1 c3Nutrition "Trans Fat" (by simp [MANDATORY_NUTRIENTS])

/-! ## C9: reformulation attribution -/

/-- C9: for a HIGH nutrient the attribution keeps only ingredients with a
recorded positive contribution (absent values are silently excluded), each
contribution being the rounded `(weight/100) * value_per_100g`, sorts them by
descending absolute contribution, and reports at most the top 5. -/
theorem claim_C9 (rows : List RecipeIngredient) (total_weight high_value : ℚ)
    (nutrient_name : String) :
    (topContributors (buildIngredientData rows) total_weight
        nutrient_name high_value).length ≤ 5 ∧
    List.Chain' (fun a b => b.contribution_abs ≤ a.contribution_abs)
      (topContributors (buildIngredientData rows) total_weight
        nutrient_name high_value) ∧
    (∀ c ∈ topContributors (buildIngredientData rows) total_weight
        nutrient_name high_value,
      c ∈ contribsFor (buildIngredientData rows) total_weight
        nutrient_name high_value) ∧
    (∀ c ∈ contribsFor (buildIngredientData rows) total_weight
        nutrient_name high_value,
      ∃ ing ∈ buildIngredientData rows, ing.name = c.ingredient ∧
        ∃ n : IngNutrientFact, dictFind? ing.nutrients nutrient_name = some n ∧
          n.abs > 0 ∧ c.contribution_abs = pyRound 3 n.abs ∧
          c.contribution_per_100g = pyRound 3 (n.abs / total_weight * 100)) ∧
    (∀ ing ∈ buildIngredientData rows,
      ∀ n : IngNutrientFact, dictFind? ing.nutrients nutrient_name = some n →
        ∃ ri ∈ rows, ri.name = ing.name ∧
          ∃ inv ∈ ri.nutrients, inv.nutrient.name = nutrient_name ∧
            n.abs = pyRound 4 (ri.weight_grams / 100 * inv.value_per_100g)) := by
  refine ⟨?_, ?_, ?_, ?_, ?_⟩
  · exact le_trans (le_of_eq rfl) (List.length_take_le 5 _)
  · have htrans : ∀ a b c : Contribution,
        decide (b.contribution_abs ≤ a.contribution_abs) = true →
        decide (c.contribution_abs ≤ b.contribution_abs) = true →
        decide (c.contribution_abs ≤ a.contribution_abs) = true := by
      intro a b c h1 h2
      simp only [decide_eq_true_eq] at h1 h2 ⊢
      exact le_trans h2 h1
    have htotal : ∀ a b : Contribution,
        (decide (b.contribution_abs ≤ a.contribution_abs) ||
          decide (a.contribution_abs ≤ b.contribution_abs)) = true := by
      intro a b
      simp only [Bool.or_eq_true, decide_eq_true_eq]
      exact le_total _ _
    have hs := List.sorted_mergeSort htrans htotal
      (contribsFor (buildIngredientData rows) total_weight nutrient_name high_value)
    have hp := List.Pairwise.sublist (List.take_sublist 5 _) hs
    exact (hp.imp (fun h => by simpa using h)).chain'
  · intro c hc
    have hmem := List.mem_of_mem_take hc
    exact ((List.mergeSort_perm _ _).mem_iff).mp hmem
  · intro c hc
    obtain ⟨ing, hing, hf⟩ := List.mem_filterMap.mp hc
    refine ⟨ing, hing, ?_⟩
    cases hd : dictFind? ing.nutrients nutrient_name with
    | none =>
      rw [hd] at hf
      cases hf
    | some n =>
      rw [hd] at hf
      dsimp only at hf
      by_cases hpos : n.abs > 0
      · rw [if_pos hpos] at hf
        obtain rfl := Option.some.inj hf
        exact ⟨rfl, n, rfl, hpos, rfl, rfl⟩
      · rw [if_neg hpos] at hf
        cases hf
  · intro ing hing n hn
    obtain ⟨ri, hri, heq⟩ := List.mem_map.mp hing
    subst heq
    have := dictFind?_foldl_insert_some ri.nutrients
      (fun inv => inv.nutrient.name)
      (fun inv => IngNutrientFact.mk
        (pyRound 4 (ri.weight_grams / 100 * inv.value_per_100g))
        (pyRound 4 inv.value_per_100g) inv.nutrient.unit) [] nutrient_name n hn
    rcases this with ⟨inv, hinv, hk, hv⟩ | habs
    · exact ⟨ri, hri, rfl, inv, hinv, hk, by rw [hv]⟩
    · cases habs

def saltSodiumFact : IngNutrientFact :=
  { abs := 1937.9, per_100g_ing := 38758, unit := "mg" }

def saltIngData : IngredientData :=
  { name := "Salt", weight_grams := 5, nutrients := [("Sodium", saltSodiumFact)] }

def riceIngData : IngredientData :=
  { name := "Rice", weight_grams := 100,
    nutrients := [("Energy", { abs := 345, per_100g_ing := 345, unit := "kcal" })] }

theorem buildIngredientData_example :
    buildIngredientData [riceRow, saltRow] = [riceIngData, saltIngData] := by
  simp only [buildIngredientData, riceRow, saltRow, energyNutrient, sodiumNutrient,
    List.map_cons, List.map_nil, List.foldl_cons, List.foldl_nil, dictInsert,
    List.any_nil, riceIngData, saltIngData, saltSodiumFact]
  norm_num [pyRound, round_eq]

/-- Witness for C9: Salt's sodium fact in the scenario recipe's attribution
data traces back to the salt ingredient row. -/
theorem claim_C9_witness :
    ∃ ri ∈ [riceRow, saltRow], ri.name = saltIngData.name ∧
      ∃ inv ∈ ri.nutrients, inv.nutrient.name = "Sodium" ∧
        saltSodiumFact.abs = pyRound 4 (ri.weight_grams / 100 * inv.value_per_100g) :=
  (claim_C9 [riceRow, saltRow] 105 1845.62 "Sodium").2.2.2.2 saltIngData
    (by rw [buildIngredientData_example]; simp) saltSodiumFact
    (by simp [saltIngData, dictFind?, List.find?_cons])

/-! ## C6: per-100g scale invariance -/

/-- Scale every ingredient weight by `k`. -/
def scaleRows (k : ℚ) (rows : List RecipeIngredient) : List RecipeIngredient :=
  rows.map (fun ri => { ri with weight_grams := k * ri.weight_grams })

/-- Scale an accumulator entry's running total by `k`. -/
def scaleEntry (k : ℚ) (e : AccEntry) : AccEntry := (e.1, e.2.1, k * e.2.2)

theorem addValue_scale (k : ℚ) (acc : List AccEntry) (nid : ℕ) (nut : Nutrient) (v : ℚ) :
    addValue (acc.map (scaleEntry k)) nid nut (k * v) =
      (addValue acc nid nut v).map (scaleEntry k) := by
  unfold addValue
  have hany : ((acc.map (scaleEntry k)).any (fun e => e.1 == nid)) =
      (acc.any (fun e => e.1 == nid)) := by
    induction acc with
    | nil => rfl
    | cons e t ih =>
      rw [List.map_cons, List.any_cons, List.any_cons, ih]
      rfl
  rw [hany]
  by_cases hh : (acc.any (fun e => e.1 == nid)) = true
  · rw [if_pos hh, if_pos hh]
    unfold updateKey
    rw [List.map_map, List.map_map]
    apply List.map_congr_left
    intro e he
    by_cases hk : (e.1 == nid) = true
    · simp [Function.comp, scaleEntry, hk, mul_add]
    · simp [Function.comp, scaleEntry, hk]
  · rw [if_neg hh, if_neg hh, List.map_append]
    rfl

theorem accIng_scale (k w : ℚ) (l : List IngNutrient) (acc : List AccEntry) :
    accIng (k * w) l (acc.map (scaleEntry k)) = (accIng w l acc).map (scaleEntry k) := by
  induction l generalizing acc with
  | nil => rfl
  | cons inv rest ih =>
    show accIng (k * w) rest (addValue (acc.map (scaleEntry k)) inv.nutrient_id
      inv.nutrient ((k * w) / 100 * inv.value_per_100g)) = _
    have hv : (k * w) / 100 * inv.value_per_100g =
        k * (w / 100 * inv.value_per_100g) := by ring
    rw [hv, addValue_scale]
    exact ih _

theorem accRows_scale (k : ℚ) (rows : List RecipeIngredient) (acc : List AccEntry) :
    accRows (scaleRows k rows) (acc.map (scaleEntry k)) =
      (accRows rows acc).map (scaleEntry k) := by
  induction rows generalizing acc with
  | nil => rfl
  | cons ri rest ih =>
    show accRows (scaleRows k rest) (accIng (k * ri.weight_grams) ri.nutrients
      (acc.map (scaleEntry k))) = _
    rw [accIng_scale]
    exact ih _

theorem totalWeight_scale (k : ℚ) (rows : List RecipeIngredient) :
    totalWeight (scaleRows k rows) = k * totalWeight rows := by
  unfold totalWeight scaleRows
  rw [List.map_map, ← List.sum_map_mul_left]
  apply congrArg
  apply List.map_congr_left
  intro ri _
  rfl

theorem nutrientTotal_eq_zero_of_weights_zero (rows : List RecipeIngredient) (nid : ℕ)
    (h : ∀ ri ∈ rows, ri.weight_grams = 0) : nutrientTotal rows nid = 0 := by
  unfold nutrientTotal
  apply List.sum_eq_zero
  intro x hx
  obtain ⟨ri, hri, rfl⟩ := List.mem_map.mp hx
  unfold ingContribution
  apply List.sum_eq_zero
  intro y hy
  obtain ⟨inv, _, rfl⟩ := List.mem_map.mp hy
  rw [h ri hri]
  ring

theorem weights_zero_of_total_zero (rows : List RecipeIngredient)
    (hw : ∀ ri ∈ rows, 0 ≤ ri.weight_grams) (h : totalWeight rows = 0) :
    ∀ ri ∈ rows, ri.weight_grams = 0 := by
  intro ri hri
  by_contra hne
  have hpos : 0 < ri.weight_grams := lt_of_le_of_ne (hw ri hri) (Ne.symm hne)
  have hle : ri.weight_grams ≤ totalWeight rows := by
    apply List.single_le_sum
    · intro x hx
      obtain ⟨ri', hri', rfl⟩ := List.mem_map.mp hx
      exact hw ri' hri'
    · exact List.mem_map.mpr ⟨ri, hri, rfl⟩
  linarith

theorem finalize_scale (k W ss : ℚ) (hk : k ≠ 0) (e : AccEntry) :
    (finalize (k * W) ss (scaleEntry k e)).1 = (finalize W ss e).1 ∧
    (finalize (k * W) ss (scaleEntry k e)).2.per_100g =
      (finalize W ss e).2.per_100g ∧
    (finalize (k * W) ss (scaleEntry k e)).2.per_serving =
      (finalize W ss e).2.per_serving ∧
    (finalize (k * W) ss (scaleEntry k e)).2.percent_dv =
      (finalize W ss e).2.percent_dv := by
  have hdiv : (k * e.2.2) / (k * W) = e.2.2 / W := mul_div_mul_left _ _ hk
  unfold finalize scaleEntry
  dsimp only
  refine ⟨rfl, ?_, ?_, ?_⟩
  · rw [hdiv]
  · rw [hdiv]
  · cases hdv : e.2.1.daily_value with
    | none => rfl
    | some dv =>
      by_cases h0 : dv = 0
      · simp [hdv, h0]
      · simp only [hdv, h0, if_neg]
        rw [hdiv]

/-- C6: scaling every ingredient weight by the same positive constant leaves
every nutrient's `per_100g`, `per_serving` and `percent_dv` unchanged
(serving size and the nutrient table held fixed). -/
theorem claim_C6 (r : Recipe) (k : ℚ) (hk : 0 < k) (hne : r.ingredients ≠ [])
    (hw : ∀ ri ∈ r.ingredients, 0 ≤ ri.weight_grams) :
    ((calculate_nutrition { r with ingredients := scaleRows k r.ingredients }).map
        (fun p => (p.1, p.2.per_100g)) =
      (calculate_nutrition r).map (fun p => (p.1, p.2.per_100g))) ∧
    ((calculate_nutrition { r with ingredients := scaleRows k r.ingredients }).map
        (fun p => (p.1, p.2.per_serving)) =
      (calculate_nutrition r).map (fun p => (p.1, p.2.per_serving))) ∧
    ((calculate_nutrition { r with ingredients := scaleRows k r.ingredients }).map
        (fun p => (p.1, p.2.percent_dv)) =
      (calculate_nutrition r).map (fun p => (p.1, p.2.percent_dv))) := by
  have hk0 : k ≠ 0 := ne_of_gt hk
  have hacc : accRows (scaleRows k r.ingredients) [] =
      (accRows r.ingredients []).map (scaleEntry k) := by
    have h := accRows_scale k r.ingredients []
    simpa using h
  simp only [calculate_nutrition]
  rw [hacc]
  by_cases h0 : totalWeight r.ingredients = 0
  · have hz : ∀ ri ∈ r.ingredients, ri.weight_grams = 0 :=
      weights_zero_of_total_zero r.ingredients hw h0
    have hzero : ∀ e ∈ accRows r.ingredients [], e.2.2 = 0 := by
      intro e he
      rw [mem_accRows_total r.ingredients e he]
      exact nutrientTotal_eq_zero_of_weights_zero r.ingredients e.1 hz
    have heq : (accRows r.ingredients []).map (scaleEntry k) =
        accRows r.ingredients [] := by
      conv_rhs => rw [← List.map_id (accRows r.ingredients [])]
      apply List.map_congr_left
      intro e he
      unfold scaleEntry
      rw [hzero e he, mul_zero, ← hzero e he]
      rfl
    have heff : effectiveWeight (scaleRows k r.ingredients) =
        effectiveWeight r.ingredients := by
      unfold effectiveWeight
      rw [totalWeight_scale, h0, mul_zero]
    rw [heq, heff]
    exact ⟨rfl, rfl, rfl⟩
  · have heff' : effectiveWeight (scaleRows k r.ingredients) =
        k * totalWeight r.ingredients := by
      unfold effectiveWeight
      rw [totalWeight_scale]
      rw [if_neg (mul_ne_zero hk0 h0)]
    have heff : effectiveWeight r.ingredients = totalWeight r.ingredients := by
      unfold effectiveWeight
      rw [if_neg h0]
    rw [heff', heff]
    simp only [List.map_map]
    refine ⟨?_, ?_, ?_⟩ <;>
    · apply List.map_congr_left
      intro e _
      have hfs := finalize_scale k (totalWeight r.ingredients) r.serving_size hk0 e
      simp only [Function.comp]
      rw [Prod.ext_iff]
      exact ⟨hfs.1, by simp [hfs.2.1, hfs.2.2.1, hfs.2.2.2]⟩

/-- Witness for C6: doubling the scenario recipe's ingredient weights. -/
theorem claim_C6_witness :
    ((calculate_nutrition { exampleRecipe with
        ingredients := scaleRows 2 exampleRecipe.ingredients }).map
        (fun p => (p.1, p.2.per_100g)) =
      (calculate_nutrition exampleRecipe).map (fun p => (p.1, p.2.per_100g))) ∧
    ((calculate_nutrition { exampleRecipe with
        ingredients := scaleRows 2 exampleRecipe.ingredients }).map
        (fun p => (p.1, p.2.per_serving)) =
      (calculate_nutrition exampleRecipe).map (fun p => (p.1, p.2.per_serving))) ∧
    ((calculate_nutrition { exampleRecipe with
        ingredients := scaleRows 2 exampleRecipe.ingredients }).map
        (fun p => (p.1, p.2.percent_dv)) =
      (calculate_nutrition exampleRecipe).map (fun p => (p.1, p.2.percent_dv))) :=
  claim_C6 exampleRecipe 2 (by norm_num) (by simp [exampleRecipe])
    (by
      intro ri hri
      simp only [exampleRecipe, List.mem_cons, List.not_mem_nil, or_false] at hri
      rcases hri with rfl | rfl <;> norm_num [riceRow, saltRow])

end KLH

